import Mathlib

/-!
# Shallow embedding of the AG2 WebSocket joke-generator client

This file embeds the streaming conversation client of
`src/joke_generator/page.tsx` (the socket variant) in Lean 4 and proves
properties of its event handling, submit guard, and reconnection behaviour.

The client is a single React component.  Its observable state is the set of
`useState` cells (`messages`, `input`, `isStreaming`, `currentAgent`,
`connectionError`, `connectionStatus`) together with the mutable ref
`wsRef`.  All transitions happen synchronously inside callbacks
(`ws.onopen`, `ws.onmessage`, `ws.onclose`, `ws.onerror`, the `useEffect`
cleanup, and the user-action `sendMessage`), so each callback is embedded as
a pure function on a state record.

Conventions of the embedding:
* JavaScript string-or-undefined fields are `Option String`; `none` is
  `undefined` / an absent field, and JS truthiness of such a field is
  `none ↦ false`, `some s ↦ s ≠ ""`.
* `JSON.parse` output, as far as the handler inspects it, is `WsMessage`:
  a `type` field and a `data` field of optional string fields.  A raw
  transport payload is either `notJSON` (a parse failure) or `json m`.
* A JS `TypeError` thrown by reading a field of `undefined` `data` is
  modelled by `handleWebSocketMessage` returning `none`; the `try`/`catch`
  in `ws.onmessage` catches it, so `onMessage` restores the prior state
  (in the source, the throw occurs before any state setter runs, so this
  is exact).
* Fresh values produced by `generateId()` and `Date.now()` are passed in
  as an explicit argument `fresh : String × Nat`.
* `pendingReconnects` counts the live `setTimeout` reconnect callbacks
  scheduled by `ws.onclose`; `socketsCreated` counts invocations of
  `connectWebSocket` (i.e. `new WebSocket(backendUrl)`); `tornDown` is a
  ghost flag recording that the effect cleanup has run.  These three ghost
  fields are never read by any handler of the source and only instrument
  the trace.
-/

/-- The role of a chat message (`"user" | "assistant"` in the source). -/
inductive Role where
  | user
  | assistant
deriving DecidableEq, Repr

/-- `Message` of the source: `{id, role, content, timestamp}`. -/
structure Message where
  id : String
  role : Role
  content : String
  timestamp : Nat
deriving DecidableEq, Repr

/-- `AgentStatus` of the source: `{agent, content}`. -/
structure AgentStatus where
  agent : String
  content : String
deriving DecidableEq, Repr

/-- The `readyState` of a browser WebSocket (`CONNECTING`, `OPEN`,
`CLOSING`, `CLOSED`; `OPEN` is spelled `opened` since `open` is reserved in
Lean). -/
inductive ReadyState where
  | connecting
  | opened
  | closing
  | closed
deriving DecidableEq, Repr

/-- The `data` field of a parsed inbound envelope, restricted to the fields
the handler reads (`step`, `agent`, `content`, `final`, `message`).  Each is
`none` when absent/undefined. -/
structure JsPayload where
  step : Option String := none
  agent : Option String := none
  content : Option String := none
  final : Option String := none
  message : Option String := none
deriving DecidableEq, Repr

/-- A parsed inbound envelope, as destructured by the handler. -/
structure WsMessage where
  type : Option String := none
  data : Option JsPayload := none
deriving DecidableEq, Repr

/-- A raw transport payload: either text that fails `JSON.parse`, or a
parsed envelope. -/
inductive RawMsg where
  | notJSON
  | json (m : WsMessage)
deriving DecidableEq, Repr

/-- The outbound request envelope sent by `sendMessage`. -/
structure Outbound where
  type : String
  topic : String
deriving DecidableEq, Repr

/-- The client state: the React `useState` cells, the `wsRef` ref (tracked
as the ready state of the referenced socket, `none` when the ref is null),
and three ghost fields instrumenting timers, socket creations and
teardown. -/
structure ClientState where
  messages : List Message
  input : String
  isStreaming : Bool
  currentAgent : Option AgentStatus
  connectionError : Option String
  connectionStatus : String
  wsRef : Option ReadyState
  pendingReconnects : Nat
  socketsCreated : Nat
  tornDown : Bool
deriving DecidableEq, Repr

/-- The initial state of the component (the `useState` initialisers). -/
def initialState : ClientState where
  messages := []
  input := ""
  isStreaming := false
  currentAgent := none
  connectionError := some ""
  connectionStatus := "Disconnected"
  wsRef := none
  pendingReconnects := 0
  socketsCreated := 0
  tornDown := false

/-- JS truthiness of a string-or-undefined value. -/
def truthy : Option String → Bool
  | none => false
  | some s => s ≠ ""

/-- JavaScript `String.prototype.trim()`: drops leading and trailing
whitespace.  Embedded structurally over the character list (rather than via
`String.trim`, whose auxiliary functions do not reduce in the kernel). -/
def trim (s : String) : String :=
  ⟨((s.data.dropWhile Char.isWhitespace).reverse.dropWhile Char.isWhitespace).reverse⟩

/-- The reconnect delay hard-coded in `ws.onclose` (milliseconds). -/
def reconnectDelayMs : Nat := 3000

/-- `connectWebSocket` (success path of the `try`): creates a fresh socket
and stores it in `wsRef`; a fresh socket is in the `CONNECTING` ready
state. -/
def connectWebSocket (s : ClientState) : ClientState :=
  { s with wsRef := some .connecting, socketsCreated := s.socketsCreated + 1 }

/-- `ws.onopen`: the socket is now open; sets status `"Connected"` and
clears the error banner. -/
def onOpen (s : ClientState) : ClientState :=
  { s with wsRef := s.wsRef.map fun _ => ReadyState.opened,
           connectionStatus := "Connected",
           connectionError := some "" }

/-- `ws.onclose`: the socket is now closed; sets status `"Disconnected"`,
clears `isStreaming` and `currentAgent`, and schedules one reconnect
callback to run after `reconnectDelayMs`. -/
def onClose (s : ClientState) : ClientState :=
  { s with wsRef := s.wsRef.map fun _ => ReadyState.closed,
           connectionStatus := "Disconnected",
           isStreaming := false,
           currentAgent := none,
           pendingReconnects := s.pendingReconnects + 1 }

/-- `ws.onerror`: sets the error banner and status `"Error"`. -/
def onError (s : ClientState) : ClientState :=
  { s with connectionError := some "WebSocket connection error. Retrying...",
           connectionStatus := "Error" }

/-- The `useEffect` cleanup: `wsRef.current.close(); wsRef.current = null`
when the ref is set.  It does nothing to any scheduled reconnect
callback.  `tornDown` is the ghost marker. -/
def teardown (s : ClientState) : ClientState :=
  match s.wsRef with
  | some _ => { s with wsRef := none, tornDown := true }
  | none => { s with tornDown := true }

/-- One scheduled reconnect callback firing: if the ref is null or the
referenced socket is `CLOSED`, call `connectWebSocket` again; otherwise do
nothing.  Requires a pending callback to exist. -/
def timerFire (s : ClientState) : ClientState :=
  if s.pendingReconnects = 0 then s
  else
    let s' := { s with pendingReconnects := s.pendingReconnects - 1 }
    match s'.wsRef with
    | none => connectWebSocket s'
    | some rs => if rs = .closed then connectWebSocket s' else s'

/-- `handleWebSocketMessage`, embedded.  Returns `none` when the source
would throw a `TypeError` (reading a field of an `undefined` `data`
before any state setter has run). -/
def handleWebSocketMessage (fresh : String × Nat) (s : ClientState)
    (m : WsMessage) : Option ClientState :=
  if m.type = some "status" then
    match m.data with
    | none => none
    | some d =>
      if d.step = some "received" ∨ d.step = some "accepted" then
        some { s with currentAgent := some ⟨"System", "Request accepted, starting agents..."⟩ }
      else if d.step = some "group:start" then
        some { s with currentAgent := some ⟨"AG2", "Agents are collaborating..."⟩ }
      else if d.step = some "group:done" then
        some { s with currentAgent := some ⟨"Finalizing", "Completing response..."⟩ }
      else some s
  else if m.type = some "agent_message" then
    match m.data with
    | none => none
    | some d =>
      if truthy d.agent ∧ truthy d.content then
        some { s with currentAgent := some ⟨d.agent.getD "", (d.agent.getD "") ++ " is working..."⟩ }
      else some s
  else if m.type = some "data" then
    match m.data with
    | none => none
    | some d =>
      if truthy d.final then
        some { s with
          messages := s.messages ++ [⟨fresh.1, .assistant, d.final.getD "", fresh.2⟩],
          isStreaming := false,
          currentAgent := none }
      else some s
  else if m.type = some "error" then
    match m.data with
    | none => none
    | some d =>
      some { s with connectionError := d.message,
                    isStreaming := false,
                    currentAgent := none }
  else some s

/-- `ws.onmessage`: parse, then dispatch; the surrounding `try`/`catch`
swallows both parse failures and exceptions thrown by the handler, leaving
the state unchanged in those cases. -/
def onMessage (fresh : String × Nat) (s : ClientState) (raw : RawMsg) :
    ClientState :=
  match raw with
  | .notJSON => s
  | .json m => (handleWebSocketMessage fresh s m).getD s

/-- `sendMessage`, embedded.  Returns the new state together with the list
of envelopes written to the socket during the call. -/
def sendMessage (fresh : String × Nat) (s : ClientState) :
    ClientState × List Outbound :=
  let topic := trim s.input
  if topic = "" ∨ s.isStreaming ∨ s.wsRef ≠ some .opened then
    (s, [])
  else
    ({ s with
        connectionError := some "",
        input := "",
        messages := s.messages ++ [⟨fresh.1, .user, topic, fresh.2⟩],
        isStreaming := true,
        currentAgent := some ⟨"Connecting", "Initializing agents..."⟩ },
     [⟨"generate_joke", topic⟩])

/-- A decoded event carries an agent status update whose value is fixed by
the event alone: a recognised `status` step, or an `agent_message` with
truthy `agent` and `content`. -/
def statusBearing : RawMsg → Bool
  | .notJSON => false
  | .json m =>
    match m.data with
    | none => false
    | some d =>
      if m.type = some "status" then
        decide (d.step = some "received" ∨ d.step = some "accepted" ∨
          d.step = some "group:start" ∨ d.step = some "group:done")
      else if m.type = some "agent_message" then
        truthy d.agent && truthy d.content
      else false

/-- Shorthand: a parsed `data` envelope carrying a `final` string. -/
def dataMsg (c : String) : RawMsg :=
  .json ⟨some "data", some { final := some c }⟩

/-- Shorthand: a parsed `status` envelope carrying a `step` string. -/
def statusMsg (st : String) : RawMsg :=
  .json ⟨some "status", some { step := some st }⟩

/-- Shorthand: a parsed `agent_message` envelope. -/
def agentMsg (a c : String) : RawMsg :=
  .json ⟨some "agent_message", some { agent := some a, content := some c }⟩

/-- Shorthand: a parsed `error` envelope carrying a `message` string. -/
def errorMsg (msg : String) : RawMsg :=
  .json ⟨some "error", some { message := some msg }⟩

/-- A concrete mid-turn state: connected, one user message submitted, the
turn streaming with an agent status showing. -/
def streamingDemo : ClientState :=
  { initialState with
      messages := [⟨"u1", .user, "cats", 10⟩],
      isStreaming := true,
      currentAgent := some ⟨"System", "Request accepted, starting agents..."⟩,
      connectionStatus := "Connected",
      wsRef := some .opened,
      socketsCreated := 1 }

/-- The concrete trace of claim C2: mount (socket created and opened), the
remote peer closes unexpectedly (scheduling a retry), then the component
unmounts before the retry delay elapses. -/
def afterTeardownDemo : ClientState :=
  teardown (onClose (onOpen (connectWebSocket initialState)))

/-- A concrete post-terminal state: `streamingDemo` after its turn was
completed by a `data` envelope carrying a final joke. -/
def completedDemo : ClientState :=
  onMessage ("a1", 20) streamingDemo (dataMsg "joke one")

/-- A concrete idle, connected state with a topic typed into the input
field. -/
def submitDemo : ClientState :=
  { initialState with
      input := "  cats  ",
      connectionStatus := "Connected",
      wsRef := some .opened,
      socketsCreated := 1 }

lemma onMessage_messages_changed (fresh : String × Nat) (s : ClientState) (raw : RawMsg)
    (h : (onMessage fresh s raw).messages ≠ s.messages) :
    ∃ m d, raw = RawMsg.json m ∧ m.type = some "data" ∧ m.data = some d ∧
      truthy d.final = true := by
  rcases raw with _ | ⟨t, dd⟩
  · simp [onMessage] at h
  · rcases dd with _ | d
    · exfalso; apply h
      simp only [onMessage, handleWebSocketMessage]
      split
      · rfl
      · split
        · rfl
        · split
          · rfl
          · split <;> rfl
    · simp only [onMessage, handleWebSocketMessage] at h
      split at h
      · exfalso; apply h
        split
        · rfl
        · split
          · rfl
          · split <;> rfl
      · split at h
        · exfalso; apply h
          split <;> rfl
        · split at h
          next h3 =>
            by_cases hf : truthy d.final = true
            · exact ⟨⟨t, some d⟩, d, rfl, h3, rfl, hf⟩
            · rw [if_neg hf] at h
              exact absurd rfl h
          next =>
            split at h
            · exact absurd rfl h
            · exact absurd rfl h

lemma statusBearing_agent_det (f₁ f₂ : String × Nat) (s₁ s₂ : ClientState)
    (raw : RawMsg) (h : statusBearing raw = true) :
    (onMessage f₁ s₁ raw).currentAgent = (onMessage f₂ s₂ raw).currentAgent := by
  rcases raw with _ | ⟨t, dd⟩
  · simp [statusBearing] at h
  · rcases dd with _ | d
    · simp [statusBearing] at h
    · simp only [statusBearing] at h
      simp only [onMessage, handleWebSocketMessage]
      split at h
      next h1 =>
        rw [if_pos h1, if_pos h1]
        simp only [decide_eq_true_eq] at h
        rcases h with h | h | h | h <;> simp [h]
      next h1 =>
        split at h
        next h2 =>
          rw [if_neg h1, if_neg h1, if_pos h2, if_pos h2]
          simp only [Bool.and_eq_true] at h
          simp [h.1, h.2]
        next h2 =>
          simp at h

/-- Claim C4: a decoded `ServerError` event received while a turn is active
transitions the turn to failed with the server's message surfaced verbatim
(`connectionError := some msg`), clears the agent status, and changes
nothing else — in particular no assistant message is appended. -/
theorem serverError_fails_turn (fresh : String × Nat) (s : ClientState)
    (msg : String) (h : s.isStreaming = true) :
    onMessage fresh s (errorMsg msg) =
      { s with connectionError := some msg, isStreaming := false,
               currentAgent := none } := by
  rfl

/-- Witness for claim C4 at a concrete streaming state and server message. -/
theorem serverError_fails_turn_witness :
    onMessage ("e1", 40) streamingDemo (errorMsg "rate limited") =
      { streamingDemo with connectionError := some "rate limited",
                           isStreaming := false, currentAgent := none } :=
  serverError_fails_turn ("e1", 40) streamingDemo "rate limited" (by decide)

/-- Claim C5: a decoded `Final` event (a `data` envelope with a non-empty
`final` string) received during an active turn appends exactly one
assistant message carrying that content, ends the turn (`isStreaming`
false) and clears the agent status; and a `data` envelope with truthy
`final` is the only decoded event that changes the message log, i.e. the
only successful ending of a turn. -/
theorem final_completes_turn (fresh : String × Nat) (s : ClientState) (c : String)
    (hs : s.isStreaming = true) (hc : c ≠ "") :
    onMessage fresh s (dataMsg c) =
      { s with
          messages := s.messages ++ [⟨fresh.1, Role.assistant, c, fresh.2⟩],
          isStreaming := false, currentAgent := none } ∧
    ∀ raw : RawMsg, (onMessage fresh s raw).messages ≠ s.messages →
      ∃ m d, raw = RawMsg.json m ∧ m.type = some "data" ∧ m.data = some d ∧
        truthy d.final = true := by
  refine ⟨?_, fun raw h => onMessage_messages_changed fresh s raw h⟩
  simp [onMessage, handleWebSocketMessage, dataMsg, truthy, hc]

/-- Witness for claim C5 at a concrete streaming state and final joke. -/
theorem final_completes_turn_witness :
    onMessage ("a9", 50) streamingDemo (dataMsg "Why did the cat...") =
      { streamingDemo with
          messages := streamingDemo.messages ++
            [⟨"a9", Role.assistant, "Why did the cat...", 50⟩],
          isStreaming := false, currentAgent := none } ∧
    ∀ raw : RawMsg,
      (onMessage ("a9", 50) streamingDemo raw).messages ≠ streamingDemo.messages →
      ∃ m d, raw = RawMsg.json m ∧ m.type = some "data" ∧ m.data = some d ∧
        truthy d.final = true :=
  final_completes_turn ("a9", 50) streamingDemo "Why did the cat..."
    (by decide) (by decide)

/-- Claim C6: submitting a topic that trims non-empty while no turn is in
flight and the socket is open appends exactly one user message carrying the
trimmed topic, enters the in-flight state with the `Connecting` agent
status, and sends exactly one `generate_joke` envelope carrying the trimmed
topic. -/
theorem sendMessage_accepts (fresh : String × Nat) (s : ClientState)
    (h1 : trim s.input ≠ "") (h2 : s.isStreaming = false)
    (h3 : s.wsRef = some ReadyState.opened) :
    sendMessage fresh s =
      ({ s with
          connectionError := some "", input := "",
          messages := s.messages ++ [⟨fresh.1, Role.user, trim s.input, fresh.2⟩],
          isStreaming := true,
          currentAgent := some ⟨"Connecting", "Initializing agents..."⟩ },
       [⟨"generate_joke", trim s.input⟩]) := by
  simp [sendMessage, h1, h2, h3]

/-- Witness for claim C6: submitting the padded topic `"  cats  "` from an
idle connected state. -/
theorem sendMessage_accepts_witness :
    sendMessage ("u2", 60) submitDemo =
      ({ submitDemo with
          connectionError := some "", input := "",
          messages := submitDemo.messages ++ [⟨"u2", Role.user, "cats", 60⟩],
          isStreaming := true,
          currentAgent := some ⟨"Connecting", "Initializing agents..."⟩ },
       [⟨"generate_joke", "cats"⟩]) :=
  sendMessage_accepts ("u2", 60) submitDemo (by decide) (by decide) (by decide)

/-- Claim C7: submitting is a synchronous no-op — state identical, nothing
sent — whenever the trimmed topic is empty, a turn is in flight, or the
socket ref is absent or not open. -/
theorem sendMessage_rejects (fresh : String × Nat) (s : ClientState)
    (h : trim s.input = "" ∨ s.isStreaming = true ∨
      s.wsRef ≠ some ReadyState.opened) :
    sendMessage fresh s = (s, []) := by
  rcases h with h | h | h <;> simp [sendMessage, h]

/-- Witness for claim C7: rejection on an empty topic, on a turn in flight,
on a whitespace-only topic, and on a closed connection. -/
theorem sendMessage_rejects_witness :
    sendMessage ("w1", 70) initialState = (initialState, []) ∧
    sendMessage ("w2", 71) streamingDemo = (streamingDemo, []) ∧
    sendMessage ("w3", 72) { submitDemo with input := "   " } =
      ({ submitDemo with input := "   " }, []) ∧
    sendMessage ("w4", 73) { initialState with input := "cats" } =
      ({ initialState with input := "cats" }, []) :=
  ⟨sendMessage_rejects ("w1", 70) initialState (Or.inl (by decide)),
   sendMessage_rejects ("w2", 71) streamingDemo (Or.inr (Or.inl (by decide))),
   sendMessage_rejects ("w3", 72) _ (Or.inl (by decide)),
   sendMessage_rejects ("w4", 73) _ (Or.inr (Or.inr (by decide)))⟩

/-- Claim C10: a `data` envelope whose `final` field is the empty string
(or absent, hence falsy) is silently discarded — the state is unchanged and
the turn stays in flight. -/
theorem empty_final_discarded (fresh : String × Nat) (s : ClientState)
    (h : s.isStreaming = true) :
    onMessage fresh s (dataMsg "") = s ∧
    onMessage fresh s (RawMsg.json ⟨some "data", some {}⟩) = s ∧
    (onMessage fresh s (dataMsg "")).isStreaming = true := by
  exact ⟨rfl, rfl, h⟩

/-- Witness for claim C10 at a concrete streaming state. -/
theorem empty_final_discarded_witness :
    onMessage ("z1", 110) streamingDemo (dataMsg "") = streamingDemo ∧
    onMessage ("z1", 110) streamingDemo (RawMsg.json ⟨some "data", some {}⟩) =
      streamingDemo ∧
    (onMessage ("z1", 110) streamingDemo (dataMsg "")).isStreaming = true :=
  empty_final_discarded ("z1", 110) streamingDemo (by decide)

/-- Claim C1 counterexample: `completedDemo` has already taken its terminal
transition (turn completed by a final joke), yet a straggling second `data`
envelope is not ignored — it appends a further assistant message. -/
theorem stale_event_changes_log :
    completedDemo.isStreaming = false ∧
    (onMessage ("a2", 30) completedDemo (dataMsg "joke two")).messages ≠
      completedDemo.messages ∧
    (onMessage ("a2", 30) completedDemo (dataMsg "joke two")).messages =
      completedDemo.messages ++ [⟨"a2", Role.assistant, "joke two", 30⟩] := by
  refine ⟨rfl, ?_, rfl⟩
  decide

/-- Claim C1 (amended): the handler has no stale-event guard — decoded
events arriving after a terminal transition are processed exactly as
during a turn: a further truthy `data` envelope appends another assistant
message (a second terminal transition), and a `status` envelope still
replaces the agent status. -/
theorem stale_events_processed (f1 f2 : String × Nat) (s : ClientState)
    (c : String) (hterm : s.isStreaming = false) (hc : c ≠ "") :
    (onMessage f1 s (dataMsg c)).messages =
      s.messages ++ [⟨f1.1, Role.assistant, c, f1.2⟩] ∧
    (onMessage f1 s (dataMsg c)).isStreaming = false ∧
    (onMessage f2 s (statusMsg "accepted")).currentAgent =
      some ⟨"System", "Request accepted, starting agents..."⟩ := by
  refine ⟨?_, ?_, rfl⟩ <;>
    simp [onMessage, handleWebSocketMessage, dataMsg, truthy, hc]

/-- Witness for the amended claim C1 at the concrete post-terminal state. -/
theorem stale_events_processed_witness :
    (onMessage ("a2", 30) completedDemo (dataMsg "joke two")).messages =
      completedDemo.messages ++ [⟨"a2", Role.assistant, "joke two", 30⟩] ∧
    (onMessage ("a2", 30) completedDemo (dataMsg "joke two")).isStreaming = false ∧
    (onMessage ("a3", 31) completedDemo (statusMsg "accepted")).currentAgent =
      some ⟨"System", "Request accepted, starting agents..."⟩ :=
  stale_events_processed ("a2", 30) ("a3", 31) completedDemo "joke two"
    (by decide) (by decide)

/-- Claim C2: in the trace where the remote peer closes unexpectedly (one
retry scheduled) and the component then tears down before the delay
elapses, the retry is still pending after teardown, and firing it opens a
new socket — a reconnect attempt after teardown, because teardown nulls
`wsRef` and the retry callback reconnects exactly when the ref is null or
the socket closed. -/
theorem reconnect_fires_after_teardown :
    afterTeardownDemo.tornDown = true ∧
    afterTeardownDemo.pendingReconnects = 1 ∧
    afterTeardownDemo.wsRef = none ∧
    (timerFire afterTeardownDemo).socketsCreated =
      afterTeardownDemo.socketsCreated + 1 := by
  decide

/-- Claim C3 counterexample: an unexpected close during a streaming turn
leaves the error message exactly as it was — in particular it never becomes
`"connection lost"`, so no failure reason is surfaced. -/
theorem close_drops_reason_cex :
    streamingDemo.isStreaming = true ∧
    (onClose streamingDemo).connectionError = streamingDemo.connectionError ∧
    (onClose streamingDemo).connectionError ≠ some "connection lost" := by
  decide

/-- Claim C3 (amended): an unexpected close while a turn is active ends the
turn at once — `isStreaming` and the agent status are cleared and the
connection status becomes `"Disconnected"` — but no failure reason is
surfaced (the error message is unchanged), and the subsequent reconnection
does not resume the turn. -/
theorem close_fails_turn_silently (s : ClientState) (h : s.isStreaming = true) :
    (onClose s).isStreaming = false ∧
    (onClose s).currentAgent = none ∧
    (onClose s).connectionStatus = "Disconnected" ∧
    (onClose s).connectionError = s.connectionError ∧
    (connectWebSocket (onClose s)).isStreaming = false ∧
    (connectWebSocket (onClose s)).messages = s.messages := by
  simp [onClose, connectWebSocket]

/-- Witness for the amended claim C3 at the concrete streaming state. -/
theorem close_fails_turn_silently_witness :
    (onClose streamingDemo).isStreaming = false ∧
    (onClose streamingDemo).currentAgent = none ∧
    (onClose streamingDemo).connectionStatus = "Disconnected" ∧
    (onClose streamingDemo).connectionError = streamingDemo.connectionError ∧
    (connectWebSocket (onClose streamingDemo)).isStreaming = false ∧
    (connectWebSocket (onClose streamingDemo)).messages =
      streamingDemo.messages :=
  close_fails_turn_silently streamingDemo (by decide)

/-- Claim C8 counterexample: an `error` envelope whose payload carries no
`message` field matches no documented shape, yet it is not discarded — it
ends the streaming turn and overwrites the error banner with the undefined
`message` field. -/
theorem error_payload_not_validated :
    onMessage ("x1", 80) streamingDemo (RawMsg.json ⟨some "error", some {}⟩) ≠
      streamingDemo ∧
    (onMessage ("x1", 80) streamingDemo
        (RawMsg.json ⟨some "error", some {}⟩)).isStreaming = false ∧
    (onMessage ("x1", 80) streamingDemo
        (RawMsg.json ⟨some "error", some {}⟩)).connectionError = none := by
  refine ⟨?_, rfl, rfl⟩
  decide

/-- Claim C8 (amended): non-JSON payloads, unknown type tags, known tags
with a missing `data` payload (the thrown `TypeError` is caught), and
unmatched payloads under `status`/`agent_message`/`data` all leave the
state unchanged; but the `error` tag performs no payload validation — any
`error` envelope with a `data` object ends the turn and overwrites
`connectionError` with its (possibly absent) `message` field. -/
theorem decoder_robustness (fresh : String × Nat) (s : ClientState)
    (m : WsMessage) (d : JsPayload) :
    onMessage fresh s RawMsg.notJSON = s ∧
    (m.type ≠ some "status" → m.type ≠ some "agent_message" →
      m.type ≠ some "data" → m.type ≠ some "error" →
      onMessage fresh s (RawMsg.json m) = s) ∧
    (m.data = none → onMessage fresh s (RawMsg.json m) = s) ∧
    (d.step ≠ some "received" → d.step ≠ some "accepted" →
      d.step ≠ some "group:start" → d.step ≠ some "group:done" →
      onMessage fresh s (RawMsg.json ⟨some "status", some d⟩) = s) ∧
    (¬(truthy d.agent = true ∧ truthy d.content = true) →
      onMessage fresh s (RawMsg.json ⟨some "agent_message", some d⟩) = s) ∧
    (truthy d.final = false →
      onMessage fresh s (RawMsg.json ⟨some "data", some d⟩) = s) ∧
    onMessage fresh s (RawMsg.json ⟨some "error", some d⟩) =
      { s with connectionError := d.message, isStreaming := false,
               currentAgent := none } := by
  refine ⟨rfl, ?_, ?_, ?_, ?_, ?_, rfl⟩
  · intro h1 h2 h3 h4
    rcases m with ⟨t, dd⟩
    simp only [onMessage, handleWebSocketMessage]
    rw [if_neg h1, if_neg h2, if_neg h3, if_neg h4]
    rfl
  · intro hd
    rcases m with ⟨t, dd⟩
    rcases dd with _ | dval
    · simp only [onMessage, handleWebSocketMessage]
      split
      · rfl
      · split
        · rfl
        · split
          · rfl
          · split <;> rfl
    · simp at hd
  · intro k1 k2 k3 k4
    simp [onMessage, handleWebSocketMessage, k1, k2, k3, k4]
  · intro h
    simp [onMessage, handleWebSocketMessage, h]
  · intro h
    simp [onMessage, handleWebSocketMessage, h]

/-- Witness for the amended claim C8, covering each benign case and the
unvalidated `error` case at concrete inputs. -/
theorem decoder_robustness_witness :
    onMessage ("n0", 90) streamingDemo RawMsg.notJSON = streamingDemo ∧
    onMessage ("n1", 91) streamingDemo (RawMsg.json ⟨some "bogus", some {}⟩) =
      streamingDemo ∧
    onMessage ("n2", 92) streamingDemo (RawMsg.json ⟨some "status", none⟩) =
      streamingDemo ∧
    onMessage ("n3", 93) streamingDemo
      (RawMsg.json ⟨some "status", some { step := some "weird" }⟩) =
      streamingDemo ∧
    onMessage ("n4", 94) streamingDemo
      (RawMsg.json ⟨some "agent_message", some { agent := some "Writer" }⟩) =
      streamingDemo ∧
    onMessage ("n5", 95) streamingDemo
      (RawMsg.json ⟨some "data", some { final := some "" }⟩) = streamingDemo ∧
    onMessage ("n6", 96) streamingDemo
      (RawMsg.json ⟨some "error", some { message := some "boom" }⟩) =
      { streamingDemo with connectionError := some "boom",
                           isStreaming := false, currentAgent := none } :=
  ⟨(decoder_robustness ("n0", 90) streamingDemo ⟨none, none⟩ {}).1,
   (decoder_robustness ("n1", 91) streamingDemo ⟨some "bogus", some {}⟩ {}).2.1
     (by decide) (by decide) (by decide) (by decide),
   (decoder_robustness ("n2", 92) streamingDemo ⟨some "status", none⟩ {}).2.2.1
     rfl,
   (decoder_robustness ("n3", 93) streamingDemo ⟨none, none⟩
       { step := some "weird" }).2.2.2.1
     (by decide) (by decide) (by decide) (by decide),
   (decoder_robustness ("n4", 94) streamingDemo ⟨none, none⟩
       { agent := some "Writer" }).2.2.2.2.1 (by decide),
   (decoder_robustness ("n5", 95) streamingDemo ⟨none, none⟩
       { final := some "" }).2.2.2.2.2.1 (by decide),
   (decoder_robustness ("n6", 96) streamingDemo ⟨none, none⟩
       { message := some "boom" }).2.2.2.2.2.2⟩

/-- Claim C9 counterexample: the status text written for an
`agent_message` event carries a trailing ellipsis — it is
`"Writer is working..."`, not `"Writer is working"`. -/
theorem agent_status_text_cex :
    (onMessage ("x2", 100) streamingDemo (agentMsg "Writer" "draft")).currentAgent =
      some ⟨"Writer", "Writer is working..."⟩ ∧
    (onMessage ("x2", 100) streamingDemo (agentMsg "Writer" "draft")).currentAgent ≠
      some ⟨"Writer", "Writer is working"⟩ := by
  refine ⟨rfl, ?_⟩
  decide

/-- Claim C9 (amended): an `agent_message` event with truthy fields makes
the agent status exactly the pair of the agent label and
`"<agentLabel> is working..."` (with trailing ellipsis); and on every
status-bearing event the new agent status depends only on the incoming
event, never on the previous state. -/
theorem agent_status_wholesale (f₁ f₂ : String × Nat) (s₁ s₂ : ClientState)
    (a c : String) (hs : s₁.isStreaming = true) (ha : a ≠ "") (hc : c ≠ "")
    (raw : RawMsg) (hraw : statusBearing raw = true) :
    (onMessage f₁ s₁ (agentMsg a c)).currentAgent =
      some ⟨a, a ++ " is working..."⟩ ∧
    (onMessage f₁ s₁ raw).currentAgent = (onMessage f₂ s₂ raw).currentAgent := by
  refine ⟨?_, statusBearing_agent_det f₁ f₂ s₁ s₂ raw hraw⟩
  simp [onMessage, handleWebSocketMessage, agentMsg, truthy, ha, hc]

/-- Witness for the amended claim C9: two different prior states receive
the same status-bearing event and end with the same agent status. -/
theorem agent_status_wholesale_witness :
    (onMessage ("x3", 101) streamingDemo (agentMsg "Writer" "draft")).currentAgent =
      some ⟨"Writer", "Writer is working..."⟩ ∧
    (onMessage ("x3", 101) streamingDemo (agentMsg "Critic" "v2")).currentAgent =
      (onMessage ("x4", 102) initialState (agentMsg "Critic" "v2")).currentAgent :=
  agent_status_wholesale ("x3", 101) ("x4", 102) streamingDemo initialState
    "Writer" "draft" (by decide) (by decide) (by decide)
    (agentMsg "Critic" "v2") (by decide)
